import Mathlib

/-!
Shallow embedding of the piano keyboard component (src/components/piano.tsx).

The component's pure data (note table, keyboard map, sampler URL table) is
embedded as concrete Lean lists; its event handlers (playNote / stopNote and
the pointer / touch / keyboard handlers of PianoKey, and the wheel handler of
the Piano container) are embedded as pure functions from the current state to
the next state together with the list of calls issued to the audio engine.
-/

namespace Piano

/-- The 12 pitch-class names in semitone order (piano.tsx line 7), written
as the concatenation of two halves (equal to the single literal list). -/
def NOTES : List String :=
  ["C", "C#", "D", "D#", "E", "F"] ++ ["F#", "G", "G#", "A", "A#", "B"]

/-- piano.tsx line 8. -/
def START_OCTAVE : Nat := 3

/-- piano.tsx line 9. -/
def END_OCTAVE : Nat := 5

/-- The static physical-key → note+octave map (piano.tsx lines 11-36), in
source textual order.  (JavaScript `Object.entries` would move the
integer-like keys "2","3","5","6","7" to the front; since the values are
pairwise distinct, `find` over either order returns the same entry.) -/
def KEYBOARD_MAP : List (String × String) :=
  [ ("z", "C3"), ("s", "C#3"), ("x", "D3"), ("d", "D#3"), ("c", "E3"),
    ("v", "F3"), ("g", "F#3"), ("b", "G3"), ("h", "G#3"), ("n", "A3"),
    ("j", "A#3"), ("m", "B3"),
    ("q", "C4"), ("2", "C#4"), ("w", "D4"), ("3", "D#4"), ("e", "E4"),
    ("r", "F4"), ("5", "F#4"), ("t", "G4"), ("6", "G#4"), ("y", "A4"),
    ("7", "A#4"), ("u", "B4") ]

/-- JavaScript `s.includes(c)` for a single-character needle, as used in
`note.includes("#")` (piano.tsx line 195): membership of the character in
the string. -/
def includesChar (s : String) (c : Char) : Bool := s.toList.contains c

/-- One record of the generated key table (the object pushed to `allKeys`
at piano.tsx line 195). -/
structure KeyRecord where
  note : String
  octave : Nat
  keyBinding : Option String
  isBlack : Bool
deriving DecidableEq, Repr

/-- The note+octave identifier string of a key record
(the template string `${note}${octave}`). -/
def keyId (k : KeyRecord) : String := k.note ++ toString k.octave

/-- The generated key table (piano.tsx lines 191-197): for each octave from
`START_OCTAVE` to `END_OCTAVE` and each note of `NOTES`, a record whose
`keyBinding` is the first `KEYBOARD_MAP` entry whose value equals the
identifier string, and whose `isBlack` is whether the note name contains
the sharp character. -/
def allKeys : List KeyRecord :=
  (List.range (END_OCTAVE + 1 - START_OCTAVE)).flatMap (fun i =>
    let octave := START_OCTAVE + i
    NOTES.map (fun note =>
      { note := note
        octave := octave
        keyBinding :=
          (KEYBOARD_MAP.find? (fun p => p.2 == note ++ toString octave)).map Prod.fst
        isBlack := includesChar note '#' }))

/-- Semitone rank of a key record: octave then index within `NOTES`.
Used to state the (octave ascending, semitone ascending) ordering. -/
def rank (k : KeyRecord) : Nat := k.octave * 12 + NOTES.indexOf k.note

/-- The `urls` table of the `Tone.Sampler` configuration
(piano.tsx lines 134-165): note identifier → sample file name. -/
def SAMPLER_URLS : List (String × String) :=
  [ ("A0", "A0.mp3"),
    ("C1", "C1.mp3"), ("D#1", "Ds1.mp3"), ("F#1", "Fs1.mp3"), ("A1", "A1.mp3"),
    ("C2", "C2.mp3"), ("D#2", "Ds2.mp3"), ("F#2", "Fs2.mp3"), ("A2", "A2.mp3"),
    ("C3", "C3.mp3"), ("D#3", "Ds3.mp3"), ("F#3", "Fs3.mp3"), ("A3", "A3.mp3"),
    ("C4", "C4.mp3"), ("D#4", "Ds4.mp3"), ("F#4", "Fs4.mp3"), ("A4", "A4.mp3"),
    ("C5", "C5.mp3"), ("D#5", "Ds5.mp3"), ("F#5", "Fs5.mp3"), ("A5", "A5.mp3"),
    ("C6", "C6.mp3"), ("D#6", "Ds6.mp3"), ("F#6", "Fs6.mp3"), ("A6", "A6.mp3"),
    ("C7", "C7.mp3"), ("D#7", "Ds7.mp3"), ("F#7", "Fs7.mp3"), ("A7", "A7.mp3"),
    ("C8", "C8.mp3") ]

/-- The note→filename convention stated for the sample table: sharps are
spelled "s" and the suffix is ".mp3" (e.g. "D#3" ↦ "Ds3.mp3"). -/
def sampleFileName (noteId : String) : String :=
  String.mk (noteId.toList.map (fun c => if c = '#' then 's' else c)) ++ ".mp3"

/-- The octave digit at the end of a sampled note identifier
(e.g. "D#3" ↦ "3"). -/
def registerOf (noteId : String) : String := noteId.takeRight 1

/-- A call issued to the audio engine (`Tone.Sampler`). -/
inductive EngineCall where
  | attack (noteId : String)
  | release (noteId : String)
deriving DecidableEq, Repr

/-- `playNote` (piano.tsx lines 49-54): if the sampler reference is non-null,
trigger an attack for the key's identifier and set pressed; otherwise do
nothing.  `sampler` is true iff the sampler reference is non-null.  Returns
the new pressed state and the engine calls issued. -/
def playNote (sampler : Bool) (noteId : String) (isPressed : Bool) :
    Bool × List EngineCall :=
  if sampler then (true, [EngineCall.attack noteId]) else (isPressed, [])

/-- `stopNote` (piano.tsx lines 56-61): if the sampler reference is non-null,
trigger a release for the key's identifier and clear pressed; otherwise do
nothing. -/
def stopNote (sampler : Bool) (noteId : String) (isPressed : Bool) :
    Bool × List EngineCall :=
  if sampler then (false, [EngineCall.release noteId]) else (isPressed, [])

/-- The DOM events a `PianoKey` reacts to (piano.tsx lines 63-99). -/
inductive KeyEvent where
  | keyDown (key : String) (isRepeat : Bool)
  | keyUp (key : String)
  | touchStart
  | touchEnd
  | mouseDown
  | mouseUp
  | mouseLeave
deriving DecidableEq, Repr

/-- One `PianoKey`'s reaction to one event (piano.tsx lines 63-99):
the keydown/keyup listeners exist only when `keyBinding` is present, keydown
plays only when the event key matches the binding and the event is not an
auto-repeat, keyup stops on a match, touch-start and mouse-down play,
touch-end and mouse-up stop unconditionally, and mouse-leave stops only when
the key is currently pressed. -/
def handleEvent (keyBinding : Option String) (sampler : Bool) (noteId : String)
    (isPressed : Bool) (e : KeyEvent) : Bool × List EngineCall :=
  match e with
  | .keyDown k rep =>
      match keyBinding with
      | some b =>
          if k == b && !rep then playNote sampler noteId isPressed
          else (isPressed, [])
      | none => (isPressed, [])
  | .keyUp k =>
      match keyBinding with
      | some b =>
          if k == b then stopNote sampler noteId isPressed
          else (isPressed, [])
      | none => (isPressed, [])
  | .touchStart => playNote sampler noteId isPressed
  | .touchEnd => stopNote sampler noteId isPressed
  | .mouseDown => playNote sampler noteId isPressed
  | .mouseUp => stopNote sampler noteId isPressed
  | .mouseLeave =>
      if isPressed then stopNote sampler noteId isPressed
      else (isPressed, [])

/-- Run a sequence of events through `handleEvent`, starting from a pressed
state, collecting every engine call in order. -/
def runEvents (keyBinding : Option String) (sampler : Bool) (noteId : String)
    (isPressed : Bool) : List KeyEvent → Bool × List EngineCall
  | [] => (isPressed, [])
  | e :: rest =>
      let r := handleEvent keyBinding sampler noteId isPressed e
      let rest := runEvents keyBinding sampler noteId r.1 rest
      (rest.1, r.2 ++ rest.2)

/-- Whether an engine call is a release. -/
def isRelease : EngineCall → Bool
  | .release _ => true
  | .attack _ => false

/-- A wheel event as read by the container's wheel handler.  The handler
reads only `deltaY`; `deltaX` and `deltaMode` are carried to state that they
are ignored. -/
structure WheelEventData where
  deltaY : Int
  deltaX : Int
  deltaMode : Nat
deriving DecidableEq, Repr

/-- `handleWheel` (piano.tsx lines 180-185): when `deltaY` is non-zero,
prevent the default scroll and add the raw `deltaY` to the container's
horizontal scroll offset; otherwise do nothing.  Returns the new
`scrollLeft` and whether default was prevented. -/
def handleWheel (scrollLeft : Int) (e : WheelEventData) : Int × Bool :=
  if e.deltaY ≠ 0 then (scrollLeft + e.deltaY, true) else (scrollLeft, false)

/-- C1: the generated key table has exactly 36 entries, one for each pair of
the 12 notes with an octave in [3,5], ordered by octave ascending and then by
semitone index ascending.  The `rank` image being exactly the consecutive
range [36, 72) gives both the strict (octave, semitone) ordering and the
uniqueness of each pair; the `all`/`any` conjunct gives that every pair of
the cross product occurs. -/
theorem allKeys_table_spec :
    allKeys.length = 36 ∧
    allKeys.map rank = List.range' 36 36 ∧
    ([3, 4, 5].all fun o => NOTES.all fun n =>
      allKeys.any fun k => k.note == n && k.octave == o) = true := by
  decide

/-- C2: for every key of the generated table, `isBlack` is true iff the note
name contains the sharp character, and each of the three octaves contains
exactly 5 black keys. -/
theorem allKeys_isBlack_spec :
    (allKeys.all fun k => k.isBlack == includesChar k.note '#') = true ∧
    ([3, 4, 5].all fun o =>
      (allKeys.filter fun k => k.octave == o && k.isBlack).length == 5) = true := by
  decide

/-- C3: the static key-binding map has exactly 24 entries and its values
(note+octave identifiers) are pairwise distinct. -/
theorem keyboardMap_injective_spec :
    KEYBOARD_MAP.length = 24 ∧ (KEYBOARD_MAP.map Prod.snd).Nodup := by
  decide

/-- C4: for every entry (physicalKey, noteId) of the key-binding map, exactly
one key of the generated table has identifier `noteId`, and every key with
that identifier carries `keyBinding = some physicalKey`; every key whose
identifier is the value of no map entry carries `keyBinding = none`. -/
theorem keyBinding_lookup_spec :
    (KEYBOARD_MAP.all fun p =>
      (allKeys.filter fun k => keyId k == p.2).length == 1 &&
      (allKeys.all fun k => !(keyId k == p.2) || (k.keyBinding == some p.1))) = true ∧
    (allKeys.all fun k =>
      !(KEYBOARD_MAP.all fun p => !(p.2 == keyId k)) || (k.keyBinding == none)) = true := by
  decide

/-- C5 counterexample: the sampler configuration does not declare 31 sample
files; the `urls` table of piano.tsx lines 134-165 has 30 entries. -/
theorem samplerUrls_not_31 : ¬ (SAMPLER_URLS.length = 31) := by
  decide

/-- C5 (amended): the sampler configuration declares exactly 30 sample files,
one per sampled note (identifiers pairwise distinct) spanning registers 0
through 8 (every register digit 0..8 occurs), each filename derived from its
note identifier with sharps spelled 's' and an '.mp3' suffix. -/
theorem samplerUrls_spec :
    SAMPLER_URLS.length = 30 ∧
    (SAMPLER_URLS.all fun p => p.2 == sampleFileName p.1) = true ∧
    (SAMPLER_URLS.map Prod.fst).Nodup ∧
    ((List.range 9).all fun r =>
      SAMPLER_URLS.any fun p => registerOf p.1 == toString r) = true := by
  decide

/-- C6: while the sampler reference is null, every event a key reacts to is a
no-op: no engine call is issued and the pressed state is unchanged. -/
theorem engine_not_ready_noop (kb : Option String) (noteId : String)
    (isPressed : Bool) (e : KeyEvent) :
    handleEvent kb false noteId isPressed e = (isPressed, []) := by
  cases e <;> cases kb <;> simp [handleEvent, playNote, stopNote]

/-- C7: a key-down whose key equals the binding, on an unpressed key with the
engine ready, sets pressed and issues exactly one attack for the key's
identifier; a key-down flagged as auto-repeat issues no call and changes
nothing; and in the generated table the key with identifier "C4" is bound to
the physical key "q". -/
theorem keyDown_attack_spec (b noteId : String) (isPressed : Bool) :
    handleEvent (some b) true noteId false (KeyEvent.keyDown b false)
      = (true, [EngineCall.attack noteId]) ∧
    handleEvent (some b) true noteId isPressed (KeyEvent.keyDown b true)
      = (isPressed, []) ∧
    (allKeys.filter fun k => keyId k == "C4").map (fun k => k.keyBinding)
      = [some "q"] := by
  refine ⟨?_, ?_, by decide⟩ <;> simp [handleEvent, playNote]

/-- C8: with the engine ready, a mouse-down followed by a mouse-leave on an
unpressed key issues exactly one attack then exactly one release (the leave
fires because the key is then pressed), and a mouse-leave on an unpressed key
issues no engine call and leaves the state unchanged. -/
theorem pointer_leave_release_spec (kb : Option String) (noteId : String) :
    runEvents kb true noteId false [KeyEvent.mouseDown, KeyEvent.mouseLeave]
      = (false, [EngineCall.attack noteId, EngineCall.release noteId]) ∧
    ((runEvents kb true noteId false [KeyEvent.mouseDown, KeyEvent.mouseLeave]).2.filter
        isRelease).length = 1 ∧
    handleEvent kb true noteId false KeyEvent.mouseLeave = (false, []) := by
  simp [runEvents, handleEvent, playNote, stopNote, isRelease]

/-- C9: a wheel event with non-zero vertical delta prevents the default
scroll and adds the raw `deltaY` to the horizontal offset, regardless of
`deltaMode` and `deltaX` (the event is arbitrary in those fields); a wheel
event with `deltaY = 0` changes nothing and does not prevent default. -/
theorem wheel_remap_spec (scrollLeft : Int) (e : WheelEventData) :
    (e.deltaY ≠ 0 → handleWheel scrollLeft e = (scrollLeft + e.deltaY, true)) ∧
    (e.deltaY = 0 → handleWheel scrollLeft e = (scrollLeft, false)) := by
  constructor <;> intro h <;> simp [handleWheel, h]

/-- Witness for C9: at offset 0, a wheel event with `deltaY = 40` yields
offset 40 with default prevented, and one with `deltaY = 0` yields offset 0
with default not prevented. -/
theorem wheel_remap_spec_witness :
    handleWheel 0 ⟨40, 0, 0⟩ = (40, true) ∧ handleWheel 0 ⟨0, 0, 1⟩ = (0, false) :=
  ⟨(wheel_remap_spec 0 ⟨40, 0, 0⟩).1 (by decide), (wheel_remap_spec 0 ⟨0, 0, 1⟩).2 rfl⟩

/-- C10: with the engine ready, a mouse-up or a touch-end on a key that is
not pressed still issues a release call for the key's identifier (no pressed
guard), in contrast to a mouse-leave on the same unpressed key, which issues
no call. -/
theorem mouseUp_unguarded_release (kb : Option String) (noteId : String) :
    handleEvent kb true noteId false KeyEvent.mouseUp
      = (false, [EngineCall.release noteId]) ∧
    handleEvent kb true noteId false KeyEvent.touchEnd
      = (false, [EngineCall.release noteId]) ∧
    handleEvent kb true noteId false KeyEvent.mouseLeave = (false, []) := by
  simp [handleEvent, stopNote]

end Piano
